import Mathlib

/-!
Verification of the fusion-bmt front-end logic: the Nomination view gating
(src/frontend/src/views/Evaluation/Nomination/NominationView.tsx), the
Action creation form and the Question/Answer panel (src/unnamed/part_000).

The TypeScript components are shallowly embedded: every event handler and
render decision becomes a pure Lean function over the component state it
reads, JS dates become natural-number timestamps, and GraphQL/Apollo
results become Option values.
-/

namespace FusionBmt

/-- Modelled from the spec: the `Role` enum of `api/models` is not under
src/. The spec names Facilitator, OrganizationLead and TeamMember as roles
of a participant; ReadOnly stands for any further role. -/
inductive Role where
  | Facilitator
  | OrganizationLead
  | TeamMember
  | ReadOnly
deriving DecidableEq, Repr

/-- Modelled from the spec: the `Progression` enum of `api/models` is not
under src/. The spec describes an ordered four-stage progression starting
at Nomination. -/
inductive Progression where
  | Nomination
  | Preparation
  | Alignment
  | FollowUp
deriving DecidableEq, Repr

/-- Modelled from the spec: the `Organization` enum of `api/models` is not
under src/. Claims never inspect it, so two representative values suffice. -/
inductive Organization where
  | Engineering
  | Construction
deriving DecidableEq, Repr

/-- Modelled from the spec: the `Priority` enum of `api/models` is not
under src/; the spec lists High, Medium and Low. -/
inductive Priority where
  | High
  | Medium
  | Low
deriving DecidableEq, Repr

/-- Modelled from the spec: the `Severity` enum of `api/models` is not
under src/; representative enumerated ratings attached to an answer. -/
inductive Severity where
  | High
  | Limited
  | Low
deriving DecidableEq, Repr

/-- Modelled from the spec: the `Barrier` classification of a question
(`api/models` is not under src/). -/
inductive Barrier where
  | GeneralMatters
  | Containment
deriving DecidableEq, Repr

/-- Modelled from the spec: a Participant record as consumed by this layer:
identifier, azureUniqueId (stable user identity), role and organization. -/
structure Participant where
  id : String
  azureUniqueId : String
  role : Role
  organization : Organization
deriving DecidableEq, Repr

/-- Modelled from the spec: an Evaluation as consumed by the Nomination
view: identifier, name, current progression and participant list. -/
structure Evaluation where
  id : String
  name : String
  progression : Progression
  participants : List Participant
deriving DecidableEq, Repr

/-- Modelled from the spec: a Question record: identifier, text, support
notes, barrier/organization classification and the owning evaluation. -/
structure Question where
  id : String
  text : String
  supportNotes : String
  barrier : Barrier
  organization : Organization
  evaluation : Evaluation
deriving DecidableEq, Repr

/-- Modelled from the spec: a note attached to an action (ordered sequence,
empty at creation); claims only ever need the empty list of them. -/
structure Note where
  text : String
deriving DecidableEq, Repr

/-- Modelled from the spec: an Action record as constructed by
ActionCreateForm; dates are modelled as natural-number timestamps. -/
structure Action where
  id : String
  title : String
  assignedTo : Participant
  description : String
  priority : Priority
  dueDate : Nat
  onHold : Bool
  createDate : Nat
  notes : List Note
  question : Question
deriving DecidableEq, Repr

/-- Modelled from the spec: an Answer record: identifier, severity,
markdown text and the owning question. -/
structure Answer where
  id : String
  severity : Severity
  text : String
  questionId : String
deriving DecidableEq, Repr

/-- The TextField validity variant of the form fields:
`Exclude<TextFieldProps[variant], undefined | "warning">` in
src/unnamed/part_000 line 16, i.e. default, error or success. -/
inductive Validity where
  | default
  | error
  | success
deriving DecidableEq, Repr

/-- Modelled from the spec: `participantCanProgressEvaluation` from
`utils/RoleBasedAccess` is not under src/. Per the spec and the doc comment
above `disableProgression`, Facilitators and OrganizationLeads can progress
an evaluation. -/
def participantCanProgressEvaluation (role : Role) : Bool :=
  role == Role.Facilitator || role == Role.OrganizationLead

/-- Modelled from the spec: `participantCanAddParticipant` from
`utils/RoleBasedAccess` is not under src/. Per the spec and the doc comment
above `disableAddParticipant`, Facilitators and OrganizationLeads can add
participants. -/
def participantCanAddParticipant (role : Role) : Bool :=
  role == Role.Facilitator || role == Role.OrganizationLead

/-- `disableProgression` of NominationView.tsx lines 28-40: true when the
evaluation is past Nomination, when the logged-in user is not among the
participants, or when the found participant may not progress the
evaluation. -/
def disableProgression (evaluation : Evaluation) (azureUniqueId : String) : Bool :=
  if evaluation.progression != Progression.Nomination then
    true
  else
    match evaluation.participants.find? (fun p => p.azureUniqueId == azureUniqueId) with
    | none => true
    | some loggedInUser => !participantCanProgressEvaluation loggedInUser.role

/-- `disableAddParticipant` of NominationView.tsx lines 50-58: true when
the logged-in user is not among the participants or may not add
participants; the progression stage is never consulted. -/
def disableAddParticipant (evaluation : Evaluation) (azureUniqueId : String) : Bool :=
  match evaluation.participants.find? (fun p => p.azureUniqueId == azureUniqueId) with
  | none => true
  | some loggedInUser => !participantCanAddParticipant loggedInUser.role

/-- The four return branches of the NominationView component body
(NominationView.tsx lines 74-127). -/
inductive RenderBranch where
  | loading
  | mutationError
  | queryError
  | loaded
deriving DecidableEq, Repr

/-- The early-return chain of NominationView (lines 74-94): loading is
checked first, then the mutation error, then query error or missing data,
and otherwise the loaded view is rendered. Errors are modelled as optional
messages. -/
def nominationViewRender (loadingQuery : Bool) (errorMutation : Option String)
    (errorQuery : Option String) (participants : Option (List Participant)) : RenderBranch :=
  if loadingQuery then
    RenderBranch.loading
  else if errorMutation != none then
    RenderBranch.mutationError
  else if errorQuery != none || participants == none then
    RenderBranch.queryError
  else
    RenderBranch.loaded

/-- `checkIfTitleValid` of src/unnamed/part_000 lines 20-22. -/
def checkIfTitleValid (title : String) : Bool :=
  title.length > 0

/-- `checkIfParticipantValid` of src/unnamed/part_000 lines 24-26. -/
def checkIfParticipantValid (participant : Option Participant) : Bool :=
  participant != none

/-- The derived `assignedTo` value of ActionCreateForm line 41:
the selected id looked up among the possible assignees. -/
def resolveAssignedTo (possibleAssignees : List Participant)
    (assignedToId : Option String) : Option Participant :=
  possibleAssignees.find? (fun a => some a.azureUniqueId == assignedToId)

/-- The local state of ActionCreateForm that `onLocalCreateClick` reads
(lines 37-46): field values and the two validity indicators. -/
structure ActionFormState where
  title : String
  assignedToId : Option String
  dueDate : Nat
  priority : Priority
  description : String
  titleValidity : Validity
  assignedToValidity : Validity
deriving DecidableEq, Repr

/-- The observable outcome of one `onLocalCreateClick` run: the list of
`onActionCreate` calls made and the validity indicators afterwards. -/
structure SubmitResult where
  calls : List Action
  titleValidity : Validity
  assignedToValidity : Validity
deriving DecidableEq, Repr

/-- `onLocalCreateClick` of src/unnamed/part_000 lines 80-106: re-run both
validators; on failure mark each failing field and make no call; otherwise
construct the Action record of lines 92-103 and call `onActionCreate` once.
`now` stands for the `new Date()` timestamp taken at submit time. -/
def onLocalCreateClick (connectedQuestion : Question)
    (possibleAssignees : List Participant) (s : ActionFormState) (now : Nat) : SubmitResult :=
  let assignedTo := resolveAssignedTo possibleAssignees s.assignedToId
  let isTitleValid := checkIfTitleValid s.title
  let isParticipantValid := checkIfParticipantValid assignedTo
  if !isTitleValid || !isParticipantValid then
    { calls := []
      titleValidity := if !isTitleValid then Validity.error else s.titleValidity
      assignedToValidity := if !isParticipantValid then Validity.error else s.assignedToValidity }
  else
    match assignedTo with
    | some assignee =>
      { calls := [{ id := ""
                    title := s.title
                    assignedTo := assignee
                    description := s.description
                    priority := s.priority
                    dueDate := s.dueDate
                    onHold := false
                    createDate := now
                    notes := []
                    question := connectedQuestion }]
        titleValidity := s.titleValidity
        assignedToValidity := s.assignedToValidity }
    | none =>
      { calls := []
        titleValidity := s.titleValidity
        assignedToValidity := s.assignedToValidity }

/-- The reactive title-validity effect of ActionCreateForm lines 54-65:
once in error, a valid title flips the indicator to success; once in
success, an invalid title flips it to error; the default state is never
left by an edit. -/
def titleValidityEffect (titleValidity : Validity) (title : String) : Validity :=
  if titleValidity == Validity.error then
    if checkIfTitleValid title then Validity.success else titleValidity
  else if titleValidity == Validity.success then
    if !checkIfTitleValid title then Validity.error else titleValidity
  else
    titleValidity

/-- The reactive assignee-validity effect of ActionCreateForm lines 67-78,
mirroring the title effect with `checkIfParticipantValid`. -/
def assignedToValidityEffect (assignedToValidity : Validity)
    (assignedTo : Option Participant) : Validity :=
  if assignedToValidity == Validity.error then
    if checkIfParticipantValid assignedTo then Validity.success else assignedToValidity
  else if assignedToValidity == Validity.success then
    if !checkIfParticipantValid assignedTo then Validity.error else assignedToValidity
  else
    assignedToValidity

/-- The severity-edit callback of QuestionAndAnswerForm line 244:
`onAnswerChange` receives the shallow merge of the current answer with the
new severity. -/
def onSeveritySelected (answer : Answer) (severity : Severity) : Answer :=
  { answer with severity := severity }

/-- The markdown-edit callback of QuestionAndAnswerForm lines 252-254:
`onAnswerChange` receives the shallow merge of the current answer with the
new text. -/
def onMarkdownChange (answer : Answer) (text : String) : Answer :=
  { answer with text := text }

/-- The participant slice of the Apollo cache as touched by
`useCreateParticipantMutation` (NominationView.tsx lines 149-164): a
normalized store of records keyed by id, and the list of references held
by the `participants` field. -/
structure ParticipantCache where
  store : List (String × Participant)
  participantRefs : List String
deriving DecidableEq, Repr

/-- The `update` callback of the creation mutation (lines 150-163):
`cache.writeFragment` stores the created participant under its id and
yields a reference, and the `participants` field updater appends that
reference to the existing list. -/
def cacheUpdateOnCreateParticipant (c : ParticipantCache) (created : Participant) :
    ParticipantCache :=
  { store := (created.id, created) :: c.store
    participantRefs := c.participantRefs ++ [created.id] }

/-- The participant list a rendering of the cached `participants` field
resolves to: each held reference looked up in the store. -/
def renderedParticipants (c : ParticipantCache) : List (Option Participant) :=
  c.participantRefs.map (fun r => c.store.lookup r)

/-! ### Helper lemmas -/

theorem string_length_pos_iff (s : String) : 0 < s.length ↔ s ≠ "" := by
  rw [String.length, List.length_pos_iff_ne_nil]
  constructor
  · intro h hs
    subst hs
    simp at h
  · intro h hd
    apply h
    cases s
    simp_all

theorem titleValidityEffect_default (t : String) :
    titleValidityEffect Validity.default t = Validity.default := rfl

theorem assignedToValidityEffect_default (p : Option Participant) :
    assignedToValidityEffect Validity.default p = Validity.default := rfl

theorem foldl_titleValidityEffect_default (ts : List String) :
    ts.foldl titleValidityEffect Validity.default = Validity.default := by
  induction ts with
  | nil => rfl
  | cons t ts ih => simpa [titleValidityEffect_default] using ih

theorem foldl_assignedToValidityEffect_default (ps : List (Option Participant)) :
    ps.foldl assignedToValidityEffect Validity.default = Validity.default := by
  induction ps with
  | nil => rfl
  | cons p ps ih => simpa [assignedToValidityEffect_default] using ih

/-! ### Claim theorems -/

/-- C8: for every string s, the title validator returns true if and only if
s has length greater than zero. -/
theorem checkIfTitleValid_iff_length_pos (s : String) :
    checkIfTitleValid s = true ↔ s.length > 0 := by
  simp [checkIfTitleValid]

/-- C9: every edit to either sub-field of the Question and Answer panel
hands the change callback a complete Answer in which only the edited field
differs from the current answer: a severity edit keeps id, text and
questionId, a markdown edit keeps id, severity and questionId. -/
theorem answerEdit_frame (a : Answer) (sev : Severity) (t : String) :
    ((onSeveritySelected a sev).severity = sev ∧
      (onSeveritySelected a sev).id = a.id ∧
      (onSeveritySelected a sev).text = a.text ∧
      (onSeveritySelected a sev).questionId = a.questionId) ∧
    ((onMarkdownChange a t).text = t ∧
      (onMarkdownChange a t).id = a.id ∧
      (onMarkdownChange a t).severity = a.severity ∧
      (onMarkdownChange a t).questionId = a.questionId) :=
  ⟨⟨rfl, rfl, rfl, rfl⟩, ⟨rfl, rfl, rfl, rfl⟩⟩

/-- C7: the reactive validity effects never leave the default state, so a
field that was never part of a failed submit stays default under any
sequence of edits; from error they move to success exactly when the field
is valid, and from success to error exactly when it is invalid,
independently for the title and the assignee. -/
theorem validityEffect_state_machine :
    (∀ ts : List String, ts.foldl titleValidityEffect Validity.default = Validity.default) ∧
    (∀ ps : List (Option Participant),
      ps.foldl assignedToValidityEffect Validity.default = Validity.default) ∧
    (∀ t, titleValidityEffect Validity.error t =
      if checkIfTitleValid t then Validity.success else Validity.error) ∧
    (∀ t, titleValidityEffect Validity.success t =
      if checkIfTitleValid t then Validity.success else Validity.error) ∧
    (∀ p, assignedToValidityEffect Validity.error p =
      if checkIfParticipantValid p then Validity.success else Validity.error) ∧
    (∀ p, assignedToValidityEffect Validity.success p =
      if checkIfParticipantValid p then Validity.success else Validity.error) := by
  refine ⟨foldl_titleValidityEffect_default, foldl_assignedToValidityEffect_default,
    ?_, ?_, ?_, ?_⟩
  · intro t
    by_cases ht : checkIfTitleValid t = true <;> simp [titleValidityEffect, ht]
  · intro t
    by_cases ht : checkIfTitleValid t = true <;> simp [titleValidityEffect, ht]
  · intro p
    by_cases hp : checkIfParticipantValid p = true <;> simp [assignedToValidityEffect, hp]
  · intro p
    by_cases hp : checkIfParticipantValid p = true <;> simp [assignedToValidityEffect, hp]

/-- C2 (counterexample): with the query still loading and a mutation error
present, NominationView renders the loading placeholder, not the mutation
error message, so the mutation-error branch is not checked first. -/
theorem nominationViewRender_mutation_not_first :
    nominationViewRender true (some "Could not add participant") none none =
      RenderBranch.loading ∧
    nominationViewRender true (some "Could not add participant") none none ≠
      RenderBranch.mutationError := by
  decide

/-- C2 (amended): the query-loading branch is checked first, then the
mutation-error branch, then the query-error/missing-data branch, then the
loaded view; each branch is rendered exactly under the stated condition. -/
theorem nominationViewRender_branch_order (l : Bool) (errM errQ : Option String)
    (ps : Option (List Participant)) :
    (nominationViewRender l errM errQ ps = RenderBranch.loading ↔ l = true) ∧
    (nominationViewRender l errM errQ ps = RenderBranch.mutationError ↔
      l = false ∧ errM ≠ none) ∧
    (nominationViewRender l errM errQ ps = RenderBranch.queryError ↔
      l = false ∧ errM = none ∧ (errQ ≠ none ∨ ps = none)) ∧
    (nominationViewRender l errM errQ ps = RenderBranch.loaded ↔
      l = false ∧ errM = none ∧ errQ = none ∧ ps ≠ none) := by
  rcases l <;> rcases errM <;> rcases errQ <;> rcases ps <;>
    simp [nominationViewRender]

theorem find?_azureUniqueId_spec (l : List Participant) (uid : String)
    (h : ∀ p ∈ l, ∀ q ∈ l, p.azureUniqueId = q.azureUniqueId → p = q) (u : Participant)
    (hu : l.find? (fun p => p.azureUniqueId == uid) = some u) :
    u ∈ l ∧ u.azureUniqueId = uid ∧
      ∀ p ∈ l, p.azureUniqueId = uid → p = u := by
  have hmem := List.mem_of_find?_eq_some hu
  have hpred := List.find?_some hu
  simp only [beq_iff_eq] at hpred
  refine ⟨hmem, hpred, fun p hp hpid => ?_⟩
  exact h p hp u hmem (by rw [hpid, hpred])

theorem find?_azureUniqueId_none (l : List Participant) (uid : String)
    (hn : l.find? (fun p => p.azureUniqueId == uid) = none) :
    ∀ p ∈ l, p.azureUniqueId ≠ uid := by
  intro p hp hpid
  have := List.find?_eq_none.mp hn p hp
  simp [hpid] at this

/-- C1: assuming participants are unique by azureUniqueId (which the spec
assumes), the Finish Nomination button is enabled (disableProgression is
false) if and only if the evaluation is at Nomination and the current user
appears among the participants with role Facilitator or OrganizationLead. -/
theorem disableProgression_false_iff (ev : Evaluation) (uid : String)
    (h : ∀ p ∈ ev.participants, ∀ q ∈ ev.participants,
      p.azureUniqueId = q.azureUniqueId → p = q) :
    disableProgression ev uid = false ↔
      ev.progression = Progression.Nomination ∧
        ∃ p ∈ ev.participants, p.azureUniqueId = uid ∧
          (p.role = Role.Facilitator ∨ p.role = Role.OrganizationLead) := by
  unfold disableProgression
  by_cases hprog : ev.progression = Progression.Nomination
  · cases hfind : ev.participants.find? (fun p => p.azureUniqueId == uid) with
    | none =>
      have hnone := find?_azureUniqueId_none ev.participants uid hfind
      simp [hprog, hfind]
      intro p hp hpid
      exact absurd hpid (hnone p hp)
    | some u =>
      obtain ⟨hmem, hid, huniq⟩ := find?_azureUniqueId_spec ev.participants uid h u hfind
      simp [hprog, hfind, participantCanProgressEvaluation]
      constructor
      · intro hrole
        refine ⟨u, hmem, hid, ?_⟩
        tauto
      · rintro ⟨p, hp, hpid, hprole⟩
        rw [huniq p hp hpid] at hprole
        tauto
  · simp [hprog]

def evaluationC1 : Evaluation :=
  { id := "ev1"
    name := "Evaluation One"
    progression := Progression.Nomination
    participants := [{ id := "pt1", azureUniqueId := "uid1", role := Role.Facilitator,
                       organization := Organization.Engineering }] }

/-- C1 witness: on a concrete Nomination-stage evaluation whose single
participant is a Facilitator with azureUniqueId uid1, the button is
enabled. -/
theorem disableProgression_false_iff_witness :
    disableProgression evaluationC1 "uid1" = false :=
  (disableProgression_false_iff evaluationC1 "uid1" (by decide)).mpr (by decide)

/-- C5: the Add Person gate ignores the progression stage entirely, and,
assuming participants are unique by azureUniqueId, it is enabled
(disableAddParticipant is false) if and only if the current user appears
among the participants with role Facilitator or OrganizationLead. -/
theorem disableAddParticipant_spec (ev : Evaluation) (uid : String)
    (h : ∀ p ∈ ev.participants, ∀ q ∈ ev.participants,
      p.azureUniqueId = q.azureUniqueId → p = q) :
    (∀ prog, disableAddParticipant { ev with progression := prog } uid =
      disableAddParticipant ev uid) ∧
    (disableAddParticipant ev uid = false ↔
      ∃ p ∈ ev.participants, p.azureUniqueId = uid ∧
        (p.role = Role.Facilitator ∨ p.role = Role.OrganizationLead)) := by
  refine ⟨fun prog => rfl, ?_⟩
  unfold disableAddParticipant
  cases hfind : ev.participants.find? (fun p => p.azureUniqueId == uid) with
  | none =>
    have hnone := find?_azureUniqueId_none ev.participants uid hfind
    simp
    intro p hp hpid
    exact absurd hpid (hnone p hp)
  | some u =>
    obtain ⟨hmem, hid, huniq⟩ := find?_azureUniqueId_spec ev.participants uid h u hfind
    simp [participantCanAddParticipant]
    constructor
    · intro hrole
      refine ⟨u, hmem, hid, ?_⟩
      tauto
    · rintro ⟨p, hp, hpid, hprole⟩
      rw [huniq p hp hpid] at hprole
      tauto

def evaluationC5 : Evaluation :=
  { id := "ev5"
    name := "Evaluation Five"
    progression := Progression.FollowUp
    participants := [{ id := "pt5", azureUniqueId := "uid5", role := Role.OrganizationLead,
                       organization := Organization.Construction }] }

/-- C5 witness: on a concrete evaluation past Nomination whose single
participant is an OrganizationLead with azureUniqueId uid5, adding a
participant is enabled, and changing the progression changes nothing. -/
theorem disableAddParticipant_spec_witness :
    (∀ prog, disableAddParticipant { evaluationC5 with progression := prog } "uid5" =
      disableAddParticipant evaluationC5 "uid5") ∧
    (disableAddParticipant evaluationC5 "uid5" = false ↔
      ∃ p ∈ evaluationC5.participants, p.azureUniqueId = "uid5" ∧
        (p.role = Role.Facilitator ∨ p.role = Role.OrganizationLead)) :=
  disableAddParticipant_spec evaluationC5 "uid5" (by decide)

/-- C3: submitting the Action creation form with a non-empty title and a
resolved assignee makes exactly one onActionCreate call, and the Action it
carries has empty id, onHold false, empty notes, and dueDate, priority,
title and description equal to the current form values, with createDate
the submit-time timestamp and the resolved assignee as assignedTo. -/
theorem onLocalCreateClick_valid (q : Question) (poss : List Participant)
    (s : ActionFormState) (now : Nat) (assignee : Participant)
    (ht : s.title ≠ "")
    (ha : resolveAssignedTo poss s.assignedToId = some assignee) :
    (onLocalCreateClick q poss s now).calls =
      [{ id := ""
         title := s.title
         assignedTo := assignee
         description := s.description
         priority := s.priority
         dueDate := s.dueDate
         onHold := false
         createDate := now
         notes := []
         question := q }] := by
  have htv : checkIfTitleValid s.title = true := by
    simpa [checkIfTitleValid] using (string_length_pos_iff s.title).mpr ht
  simp [onLocalCreateClick, ha, htv, checkIfParticipantValid]

def questionC3 : Question :=
  { id := "q3"
    text := "Is the team staffed?"
    supportNotes := "Check the org chart"
    barrier := Barrier.GeneralMatters
    organization := Organization.Engineering
    evaluation := { id := "ev3", name := "Evaluation Three",
                    progression := Progression.Preparation, participants := [] } }

def assigneeC3 : Participant :=
  { id := "pt3", azureUniqueId := "uid3", role := Role.TeamMember,
    organization := Organization.Engineering }

def formStateC3 : ActionFormState :=
  { title := "Staff the team"
    assignedToId := some "uid3"
    dueDate := 100
    priority := Priority.Medium
    description := "Hire"
    titleValidity := Validity.default
    assignedToValidity := Validity.default }

/-- C3 witness: submitting a concrete filled-in form makes exactly the one
expected call. -/
theorem onLocalCreateClick_valid_witness :
    (onLocalCreateClick questionC3 [assigneeC3] formStateC3 7).calls =
      [{ id := ""
         title := formStateC3.title
         assignedTo := assigneeC3
         description := formStateC3.description
         priority := formStateC3.priority
         dueDate := formStateC3.dueDate
         onHold := false
         createDate := 7
         notes := []
         question := questionC3 }] :=
  onLocalCreateClick_valid questionC3 [assigneeC3] formStateC3 7 assigneeC3
    (by decide) (by decide)

/-- C4: submitting with an empty title or an unresolved assignee makes no
onActionCreate call, and each failing field has its validity set to
error. -/
theorem onLocalCreateClick_invalid (q : Question) (poss : List Participant)
    (s : ActionFormState) (now : Nat)
    (h : s.title = "" ∨ resolveAssignedTo poss s.assignedToId = none) :
    (onLocalCreateClick q poss s now).calls = [] ∧
    (s.title = "" → (onLocalCreateClick q poss s now).titleValidity = Validity.error) ∧
    (resolveAssignedTo poss s.assignedToId = none →
      (onLocalCreateClick q poss s now).assignedToValidity = Validity.error) := by
  have hfail : (!checkIfTitleValid s.title || !checkIfParticipantValid
      (resolveAssignedTo poss s.assignedToId)) = true := by
    rcases h with h | h
    · have : checkIfTitleValid s.title = false := by
        simp [checkIfTitleValid, h]
      simp [this]
    · simp [checkIfParticipantValid, h]
  refine ⟨?_, ?_, ?_⟩
  · simp [onLocalCreateClick, hfail]
  · intro ht
    have : checkIfTitleValid s.title = false := by
      simp [checkIfTitleValid, ht]
    simp [onLocalCreateClick, hfail, this]
  · intro ha
    have : checkIfParticipantValid (resolveAssignedTo poss s.assignedToId) = false := by
      simp [checkIfParticipantValid, ha]
    simp [onLocalCreateClick, hfail, this]

def formStateC4 : ActionFormState :=
  { title := ""
    assignedToId := none
    dueDate := 50
    priority := Priority.High
    description := "Nothing yet"
    titleValidity := Validity.default
    assignedToValidity := Validity.default }

/-- C4 witness: a concrete submit with empty title and no selected assignee
makes no call and marks both fields as error. -/
theorem onLocalCreateClick_invalid_witness :
    (onLocalCreateClick questionC3 [] formStateC4 3).calls = [] ∧
    (formStateC4.title = "" →
      (onLocalCreateClick questionC3 [] formStateC4 3).titleValidity = Validity.error) ∧
    (resolveAssignedTo [] formStateC4.assignedToId = none →
      (onLocalCreateClick questionC3 [] formStateC4 3).assignedToValidity = Validity.error) :=
  onLocalCreateClick_invalid questionC3 [] formStateC4 3 (Or.inl rfl)

/-- C10: every Action handed to onActionCreate carries an assignedTo drawn
from possibleAssignees, and when the selected id occurs nowhere in
possibleAssignees the submission is blocked with the assignee field set to
error. -/
theorem onLocalCreateClick_assignee_membership (q : Question) (poss : List Participant)
    (s : ActionFormState) (now : Nat) :
    (∀ a ∈ (onLocalCreateClick q poss s now).calls, a.assignedTo ∈ poss) ∧
    ((∀ p ∈ poss, s.assignedToId ≠ some p.azureUniqueId) →
      (onLocalCreateClick q poss s now).calls = [] ∧
      (onLocalCreateClick q poss s now).assignedToValidity = Validity.error) := by
  constructor
  · intro a ha
    unfold onLocalCreateClick at ha
    cases hfind : resolveAssignedTo poss s.assignedToId with
    | none => simp [hfind, checkIfParticipantValid] at ha
    | some assignee =>
      have hmem : assignee ∈ poss := List.mem_of_find?_eq_some hfind
      by_cases htv : checkIfTitleValid s.title = true
      · simp [hfind, htv, checkIfParticipantValid] at ha
        rw [ha]
        exact hmem
      · simp [hfind, htv, checkIfParticipantValid] at ha
  · intro hno
    have hfind : resolveAssignedTo poss s.assignedToId = none := by
      unfold resolveAssignedTo
      rw [List.find?_eq_none]
      intro p hp
      simp
      intro hpid
      exact absurd hpid.symm (hno p hp)
    have hpv : checkIfParticipantValid (resolveAssignedTo poss s.assignedToId) = false := by
      simp [checkIfParticipantValid, hfind]
    constructor
    · simp [onLocalCreateClick, hpv]
    · simp [onLocalCreateClick, hpv]

def actionC10 : Action :=
  { id := ""
    title := formStateC3.title
    assignedTo := assigneeC3
    description := formStateC3.description
    priority := formStateC3.priority
    dueDate := formStateC3.dueDate
    onHold := false
    createDate := 7
    notes := []
    question := questionC3 }

/-- C10 witness: on a concrete valid submission the assignee of the
created Action is drawn from possibleAssignees, and on a concrete submission
whose selected id matches nobody the submit is blocked with the assignee
field in error. -/
theorem onLocalCreateClick_assignee_membership_witness :
    actionC10.assignedTo ∈ [assigneeC3] ∧
    ((onLocalCreateClick questionC3 [] formStateC3 7).calls = [] ∧
      (onLocalCreateClick questionC3 [] formStateC3 7).assignedToValidity = Validity.error) :=
  ⟨(onLocalCreateClick_assignee_membership questionC3 [assigneeC3] formStateC3 7).1
      actionC10 (by decide),
    (onLocalCreateClick_assignee_membership questionC3 [] formStateC3 7).2 (by decide)⟩

/-- C6: after a successful creation mutation whose returned participant has
an id not already referenced by the cached participants field, the
rendered participant list equals the previous list with exactly the
returned record appended; the update is the pure cache transformation of
the update callback of the mutation, issuing no new query. -/
theorem cacheUpdateOnCreateParticipant_appends (c : ParticipantCache) (created : Participant)
    (h : created.id ∉ c.participantRefs) :
    renderedParticipants (cacheUpdateOnCreateParticipant c created) =
      renderedParticipants c ++ [some created] := by
  unfold renderedParticipants cacheUpdateOnCreateParticipant
  rw [List.map_append]
  congr 1
  · apply List.map_congr_left
    intro r hr
    have hne : r ≠ created.id := fun hre => h (hre ▸ hr)
    simp [List.lookup_cons, beq_false_of_ne hne]
  · simp [List.lookup_cons]

def cacheC6 : ParticipantCache :=
  { store := [("pt6", { id := "pt6", azureUniqueId := "uid6", role := Role.Facilitator,
                        organization := Organization.Engineering })]
    participantRefs := ["pt6"] }

def createdC6 : Participant :=
  { id := "pt7", azureUniqueId := "uid7", role := Role.TeamMember,
    organization := Organization.Construction }

/-- C6 witness: on a concrete one-entry cache, creating a participant with
a fresh id appends exactly that record to the rendered list. -/
theorem cacheUpdateOnCreateParticipant_appends_witness :
    renderedParticipants (cacheUpdateOnCreateParticipant cacheC6 createdC6) =
      renderedParticipants cacheC6 ++ [some createdC6] :=
  cacheUpdateOnCreateParticipant_appends cacheC6 createdC6 (by decide)

end FusionBmt
